import Mathlib

/-!
Shallow embedding of the DaySync server's AI-chat router
(`app/routers/ai_chat.py`) and proofs about its conversation
orchestration: function-call dispatch, turn processing, retention
cleanup, short-response normalization, and the session-management
endpoints.

Modelling conventions:
* Python `datetime` values are represented by their chronological
  position as a second count (`Int`) in the proleptic Gregorian
  calendar; `datetime.fromisoformat` is embedded as a parser for the
  canonical `YYYY-MM-DD[THH:MM[:SS]]` shapes it accepts, returning
  `none` where Python raises `ValueError`.
* SQLAlchemy tables are lists of records inside a `DB` structure;
  autoincrement primary keys are explicit counters.  `Query.first()`
  without an `order_by` is modelled as `List.find?` over insertion
  order, and `order_by` as `List.insertionSort`.
* Python exceptions escaping a function are modelled with `Except`;
  the dispatcher returns the (possibly mutated) database alongside,
  since ORM mutations made before an exception stay pending on the
  session and are committed later in the same request.
* The Gemini oracle is an external collaborator: it enters the model
  as two opaque functions (first reply as a list of parts, follow-up
  text after a tool result).  The exact prompt string assembled around
  the user utterance is not modelled; the utterance handed to the
  oracle is recorded in the turn output.
-/

namespace DaySync

/-- Argument bag of a function call: the string-valued fields of the
protobuf `args` struct (all declared parameters are `STRING`). -/
abbrev Args := List (String × String)

/-- `args.get(k)` of a Python dict: `none` when the key is absent. -/
def argGet (args : Args) (k : String) : Option String :=
  args.lookup k

/-- Python truthiness of an optional string: `None` and `""` are falsy. -/
def truthy : Option String → Bool
  | none => false
  | some s => s ≠ ""

/-- `needle` is a prefix of `hay` (on character lists). -/
def startsWithCh : List Char → List Char → Bool
  | _, [] => true
  | [], _ :: _ => false
  | a :: as, b :: bs => a == b && startsWithCh as bs

/-- `needle` occurs inside `hay` (on character lists). -/
def containsCh : List Char → List Char → Bool
  | [], needle => needle.isEmpty
  | a :: t, needle => startsWithCh (a :: t) needle || containsCh t needle

/-- Python's substring test `sub in s` (also SQL `LIKE %sub%` used by
`Calendar.event_title.contains`). -/
def containsStr (s sub : String) : Bool :=
  containsCh s.data sub.data

/-- ASCII whitespace (the characters Python `str.strip()` removes from
the inputs at issue). -/
def isSpaceCh (c : Char) : Bool :=
  c == ' ' || c == '\t' || c == '\n' || c == '\r' || c == '\x0b' || c == '\x0c'

/-- Python `str.strip()`. -/
def pyStrip (s : String) : String :=
  String.mk (((s.data.dropWhile isSpaceCh).reverse.dropWhile isSpaceCh).reverse)

/-- Python `str.lower()` (ASCII case folding; the token sets at issue
are ASCII and Korean, and Korean has no case). -/
def pyLower (s : String) : String :=
  String.mk (s.data.map fun c =>
    if 65 ≤ c.toNat && c.toNat ≤ 90 then Char.ofNat (c.toNat + 32) else c)

/-! ### `datetime` model -/

/-- A parsed Python `datetime` (no timezone, whole seconds). -/
structure PyDateTime where
  year : Nat
  month : Nat
  day : Nat
  hour : Nat
  minute : Nat
  second : Nat
deriving DecidableEq

def isLeapYear (y : Nat) : Bool :=
  (y % 4 == 0 && y % 100 != 0) || y % 400 == 0

def daysInMonth (y m : Nat) : Nat :=
  if m == 2 then (if isLeapYear y then 29 else 28)
  else if m == 4 || m == 6 || m == 9 || m == 11 then 30
  else 31

/-- Days in year `y` before the first of month `m`. -/
def daysBeforeMonth (y m : Nat) : Nat :=
  (List.range (m - 1)).foldl (fun acc i => acc + daysInMonth y (i + 1)) 0

/-- Chronological position of a datetime, in seconds from the start of
the proleptic Gregorian year 1.  Python datetime comparison and
`timedelta` arithmetic coincide with `Int` arithmetic on this value. -/
def toSec (dt : PyDateTime) : Int :=
  ((365 * (dt.year - 1) + (dt.year - 1) / 4 - (dt.year - 1) / 100
      + (dt.year - 1) / 400 + daysBeforeMonth dt.year dt.month
      + (dt.day - 1)) * 86400
    + dt.hour * 3600 + dt.minute * 60 + dt.second : Nat)

/-- `timedelta(days=1)` in seconds. -/
def oneDaySec : Int := 86400

/-- `timedelta(days=30)` in seconds. -/
def thirtyDaysSec : Int := 30 * 86400

/-- Split a character list on a separator character. -/
def splitOnCh (sep : Char) : List Char → List (List Char)
  | [] => [[]]
  | c :: t =>
    let r := splitOnCh sep t
    if c == sep then [] :: r
    else
      match r with
      | [] => [[c]]
      | h :: t2 => (c :: h) :: t2

/-- The value of a decimal digit character. -/
def digitVal (c : Char) : Option Nat :=
  if 48 ≤ c.toNat && c.toNat ≤ 57 then some (c.toNat - 48) else none

/-- A run of decimal digits as a number. -/
def digitsToNat : List Char → Option Nat
  | [] => none
  | l => l.foldl (fun acc c => acc.bind fun n => (digitVal c).map fun d => n * 10 + d)
      (some 0)

/-- A fixed-width decimal field of `datetime.fromisoformat`. -/
def parseField (width : Nat) (l : List Char) : Option Nat :=
  if l.length == width then digitsToNat l else none

/-- The `YYYY-MM-DD` date part, with Python's range validation. -/
def parseDate (l : List Char) : Option (Nat × Nat × Nat) :=
  match splitOnCh '-' l with
  | [ys, ms, ds] =>
    match parseField 4 ys, parseField 2 ms, parseField 2 ds with
    | some y, some m, some d =>
      if 1 ≤ y && 1 ≤ m && m ≤ 12 && 1 ≤ d && d ≤ daysInMonth y m then
        some (y, m, d)
      else none
    | _, _, _ => none
  | _ => none

/-- The `HH:MM[:SS]` time part, with Python's range validation. -/
def parseTime (l : List Char) : Option (Nat × Nat × Nat) :=
  match splitOnCh ':' l with
  | [hs, ms] =>
    match parseField 2 hs, parseField 2 ms with
    | some h, some mi => if h ≤ 23 && mi ≤ 59 then some (h, mi, 0) else none
    | _, _ => none
  | [hs, ms, ss] =>
    match parseField 2 hs, parseField 2 ms, parseField 2 ss with
    | some h, some mi, some sec =>
      if h ≤ 23 && mi ≤ 59 && sec ≤ 59 then some (h, mi, sec) else none
    | _, _, _ => none
  | _ => none

/-- `datetime.fromisoformat` on the canonical shapes
`YYYY-MM-DD` and `YYYY-MM-DDTHH:MM[:SS]`; `none` where Python raises. -/
def fromisoformatDT (s : String) : Option PyDateTime :=
  match splitOnCh 'T' s.data with
  | [d] => (parseDate d).map fun yd => ⟨yd.1, yd.2.1, yd.2.2, 0, 0, 0⟩
  | [d, t] =>
    match parseDate d, parseTime t with
    | some yd, some hm => some ⟨yd.1, yd.2.1, yd.2.2, hm.1, hm.2.1, hm.2.2⟩
    | _, _ => none
  | _ => none

/-- Parse an ISO string down to its chronological second count. -/
def parseIso (s : String) : Option Int :=
  (fromisoformatDT s).map toSec

/-- Left-pad a decimal rendering with zeros (strftime field widths). -/
def padNum (width n : Nat) : String :=
  let r := Nat.repr n
  String.mk (List.replicate (width - r.length) '0') ++ r

/-- `format_datetime_korean`: strftime `%Y년 %m월 %d일 %H시 %M분`, or the
input itself when parsing fails. -/
def format_datetime_korean (iso_datetime : String) : String :=
  match fromisoformatDT iso_datetime with
  | some dt =>
    padNum 4 dt.year ++ "년 " ++ padNum 2 dt.month ++ "월 "
      ++ padNum 2 dt.day ++ "일 " ++ padNum 2 dt.hour ++ "시 "
      ++ padNum 2 dt.minute ++ "분"
  | none => iso_datetime

/-! ### Repository model (`app/models.py`, the columns the router uses) -/

/-- `models.User` (columns unused by the AI-chat router omitted). -/
structure UserR where
  id : Nat
  uuid : String
  is_deleted : Bool
deriving DecidableEq

/-- `models.Session`. -/
structure Sess where
  id : Nat
  user_uuid : String
  title : String
  category : String
  created_at : Int
  updated_at : Int
deriving DecidableEq

/-- `models.Message` (`intent`/`confidence` are write-only metadata the
router never touches; omitted). -/
structure Msg where
  id : Nat
  session_id : Nat
  content : String
  is_user : Bool
  created_at : Int
deriving DecidableEq

/-- `models.Calendar` (location coordinates unused by the router omitted). -/
structure Calendar where
  id : Nat
  user_uuid : String
  event_title : String
  event_start_time : Int
  event_end_time : Option Int
  description : Option String
  location_alias : Option String
deriving DecidableEq

/-- `models.Alarm` (sound/calendar-link columns unused by the router
omitted). -/
structure Alarm where
  id : Nat
  user_uuid : String
  alarm_time : Int
  label : String
  is_enabled : Bool
  repeat_days : Option String
deriving DecidableEq

/-- The repository: each table in insertion order plus the autoincrement
counters. -/
structure DB where
  users : List UserR
  sessions : List Sess
  messages : List Msg
  calendars : List Calendar
  alarms : List Alarm
  nextSessId : Nat
  nextMsgId : Nat
  nextCalId : Nat
  nextAlarmId : Nat
deriving DecidableEq

/-- The empty database. -/
def DB.empty : DB := ⟨[], [], [], [], [], 1, 1, 1, 1⟩

/-! ### Function dispatch (`execute_function_call`) -/

/-- One entry of the `events` payload returned by `get_schedule_info`
(the dict built at lines 264-272 of the router). -/
structure EventOut where
  title : String
  start_time : Int
  end_time : Option Int
  description : Option String
  location : Option String
deriving DecidableEq

def eventOut (c : Calendar) : EventOut :=
  ⟨c.event_title, c.event_start_time, c.event_end_time, c.description,
    c.location_alias⟩

/-- The result dict of `execute_function_call`; absent dict keys are the
field defaults. -/
structure DispatchResult where
  status : String
  message : String := ""
  event_id : Option Nat := none
  alarm_id : Option Nat := none
  events : Option (List EventOut) := none
  require_location_confirmation : Option Bool := none
  destination : Option String := none
  start_location : Option String := none
  action : Option String := none
  target_date : Option String := none
deriving DecidableEq

/-- `datetime.fromisoformat(v)` on an argument value, as the dispatcher
sees it: a missing value raises `TypeError`, an unparsable one
`ValueError`.  The `Except` error is the raised exception's message. -/
def fromisoArg : Option String → Except String Int
  | none => .error "TypeError: fromisoformat argument must be str"
  | some s =>
    match parseIso s with
    | some t => .ok t
    | none => .error ("ValueError: Invalid isoformat string: " ++ s)

/-- Replace the calendar row with primary key `i` (an ORM attribute
assignment on the loaded object). -/
def updateCal (db : DB) (i : Nat) (f : Calendar → Calendar) : DB :=
  { db with calendars := db.calendars.map fun c => if c.id == i then f c else c }

/-- Replace the alarm row with primary key `i`. -/
def updateAlarm (db : DB) (i : Nat) (f : Alarm → Alarm) : DB :=
  { db with alarms := db.alarms.map fun a => if a.id == i then f a else a }

/-- Ascending order by event start time (`order_by(event_start_time)`). -/
def calStartLe (a b : Calendar) : Prop := a.event_start_time ≤ b.event_start_time

instance : DecidableRel calStartLe := fun a b =>
  Int.decLe a.event_start_time b.event_start_time

/-- `execute_function_call(function_name, args, user_uuid, db)`: returns
the result dict (or the exception that escaped) together with the
database, including mutations pending at the moment an exception was
raised (they stay on the ORM session and are committed later in the
request). -/
def execute_function_call (function_name : String) (args : Args)
    (user_uuid : String) (db : DB) : Except String DispatchResult × DB :=
  if function_name == "create_schedule" then
    if !truthy (argGet args "title") || !truthy (argGet args "start_time") then
      (.ok { status := "error", message := "제목과 시작 시간이 필요합니다." }, db)
    else
      match fromisoArg (argGet args "start_time") with
      | .error e => (.error e, db)
      | .ok st =>
        let endTimeE : Except String (Option Int) :=
          if truthy (argGet args "end_time") then
            (fromisoArg (argGet args "end_time")).map some
          else .ok none
        match endTimeE with
        | .error e => (.error e, db)
        | .ok et =>
          let ev : Calendar :=
            ⟨db.nextCalId, user_uuid, (argGet args "title").getD "", st, et,
              argGet args "description", argGet args "location"⟩
          let korean_time := format_datetime_korean ((argGet args "start_time").getD "")
          (.ok { status := "success",
                 message := korean_time ++ "에 '" ++ ev.event_title
                   ++ "' 일정이 추가되었습니다.",
                 event_id := some ev.id },
           { db with calendars := db.calendars ++ [ev],
                     nextCalId := db.nextCalId + 1 })
  else if function_name == "create_alarm" then
    if !truthy (argGet args "time") || !truthy (argGet args "label") then
      (.ok { status := "error", message := "시간과 레이블이 필요합니다." }, db)
    else
      match fromisoArg (argGet args "time") with
      | .error e => (.error e, db)
      | .ok t =>
        let al : Alarm :=
          ⟨db.nextAlarmId, user_uuid, t, (argGet args "label").getD "", true,
            argGet args "repeat_days"⟩
        let korean_time := format_datetime_korean ((argGet args "time").getD "")
        (.ok { status := "success",
               message := korean_time ++ "에 '" ++ al.label
                 ++ "' 알람이 설정되었습니다.",
               alarm_id := some al.id },
         { db with alarms := db.alarms ++ [al],
                   nextAlarmId := db.nextAlarmId + 1 })
  else if function_name == "get_schedule_info" then
    let q0 := db.calendars.filter fun c => c.user_uuid == user_uuid
    let q1 :=
      if truthy (argGet args "title") then
        q0.filter fun c => containsStr c.event_title ((argGet args "title").getD "")
      else q0
    let rangedE : Except String (List Calendar) :=
      if truthy (argGet args "search_date") then
        match fromisoArg (argGet args "search_date") with
        | .error e => .error e
        | .ok sd =>
          .ok (q1.filter fun c =>
            sd ≤ c.event_start_time && c.event_start_time < sd + oneDaySec)
      else .ok q1
    match rangedE with
    | .error e => (.error e, db)
    | .ok q2 =>
      let events := List.insertionSort calStartLe q2
      if events.isEmpty then
        (.ok { status := "success", message := "일정이 없습니다.",
               events := some [] }, db)
      else
        (.ok { status := "success", events := some (events.map eventOut) }, db)
  else if function_name == "update_schedule" then
    if !truthy (argGet args "title") then
      (.ok { status := "error", message := "수정할 일정 제목이 필요합니다." }, db)
    else
      let t := (argGet args "title").getD ""
      match db.calendars.find? fun c =>
          c.user_uuid == user_uuid && c.event_title == t with
      | none =>
        (.ok { status := "error",
               message := "'" ++ t ++ "' 일정을 찾을 수 없습니다." }, db)
      | some event =>
        let db1 :=
          if truthy (argGet args "new_title") then
            updateCal db event.id fun c =>
              { c with event_title := (argGet args "new_title").getD "" }
          else db
        let stepStart : Except String DB :=
          if truthy (argGet args "new_start_time") then
            (fromisoArg (argGet args "new_start_time")).map fun v =>
              updateCal db1 event.id fun c => { c with event_start_time := v }
          else .ok db1
        match stepStart with
        | .error e => (.error e, db1)
        | .ok db2 =>
          let stepEnd : Except String DB :=
            if truthy (argGet args "new_end_time") then
              (fromisoArg (argGet args "new_end_time")).map fun v =>
                updateCal db2 event.id fun c => { c with event_end_time := some v }
            else .ok db2
          match stepEnd with
          | .error e => (.error e, db2)
          | .ok db3 =>
            let db4 :=
              if truthy (argGet args "new_description") then
                updateCal db3 event.id fun c =>
                  { c with description := argGet args "new_description" }
              else db3
            let db5 :=
              if truthy (argGet args "new_location") then
                updateCal db4 event.id fun c =>
                  { c with location_alias := argGet args "new_location" }
              else db4
            (.ok { status := "success",
                   message := "'" ++ t ++ "' 일정이 수정되었습니다." }, db5)
  else if function_name == "delete_schedule" then
    if !truthy (argGet args "title") then
      (.ok { status := "error", message := "삭제할 일정 제목이 필요합니다." }, db)
    else
      let t := (argGet args "title").getD ""
      match db.calendars.find? fun c =>
          c.user_uuid == user_uuid && c.event_title == t with
      | none =>
        (.ok { status := "error",
               message := "'" ++ t ++ "' 일정을 찾을 수 없습니다." }, db)
      | some event =>
        (.ok { status := "success",
               message := "'" ++ event.event_title ++ "' 일정이 삭제되었습니다." },
         { db with calendars := db.calendars.filter fun c => c.id != event.id })
  else if function_name == "update_alarm" then
    if !truthy (argGet args "label") then
      (.ok { status := "error", message := "수정할 알람 레이블이 필요합니다." }, db)
    else
      let lb := (argGet args "label").getD ""
      match db.alarms.find? fun a =>
          a.user_uuid == user_uuid && a.label == lb with
      | none =>
        (.ok { status := "error",
               message := "'" ++ lb ++ "' 알람을 찾을 수 없습니다." }, db)
      | some alarm =>
        let stepTime : Except String DB :=
          if truthy (argGet args "new_time") then
            (fromisoArg (argGet args "new_time")).map fun v =>
              updateAlarm db alarm.id fun a => { a with alarm_time := v }
          else .ok db
        match stepTime with
        | .error e => (.error e, db)
        | .ok db1 =>
          let db2 :=
            if truthy (argGet args "new_label") then
              updateAlarm db1 alarm.id fun a =>
                { a with label := (argGet args "new_label").getD "" }
            else db1
          (.ok { status := "success",
                 message := "'" ++ lb ++ "' 알람이 수정되었습니다." }, db2)
  else if function_name == "delete_alarm" then
    if !truthy (argGet args "label") then
      (.ok { status := "error", message := "삭제할 알람 레이블이 필요합니다." }, db)
    else
      let lb := (argGet args "label").getD ""
      match db.alarms.find? fun a =>
          a.user_uuid == user_uuid && a.label == lb with
      | none =>
        (.ok { status := "error",
               message := "'" ++ lb ++ "' 알람을 찾을 수 없습니다." }, db)
      | some alarm =>
        (.ok { status := "success",
               message := "'" ++ alarm.label ++ "' 알람이 삭제되었습니다." },
         { db with alarms := db.alarms.filter fun a => a.id != alarm.id })
  else if function_name == "search_route" then
    let destination := argGet args "destination"
    let start_location := argGet args "start_location"
    if !truthy destination then
      (.ok { status := "error", message := "도착지가 필요합니다." }, db)
    else if !truthy start_location then
      (.ok { status := "pending",
             message := "현재 위치를 출발지로 사용할까요?",
             require_location_confirmation := some true,
             destination := destination }, db)
    else
      let sl := (start_location).getD ""
      let sl :=
        if containsStr sl "현재" || containsStr sl "지금" || containsStr sl "여기" then
          "CURRENT_LOCATION"
        else sl
      (.ok { status := "success",
             message := sl ++ "에서 " ++ destination.getD "" ++ "까지 경로를 탐색합니다.",
             start_location := some sl,
             destination := destination,
             action := some "search_route" }, db)
  else if function_name == "get_weather_info" then
    let target_date := argGet args "target_date"
    if !truthy target_date then
      (.ok { status := "error", message := "날짜 정보가 필요합니다." }, db)
    else if !(["today", "tomorrow", "day_after_tomorrow"].contains
        (target_date.getD "")) then
      (.ok { status := "error",
             message := "현재는 모레까지의 날씨만 알려드릴 수 있어요" }, db)
    else
      (.ok { status := "success",
             action := some "get_weather",
             target_date := target_date,
             message := "날씨 정보를 조회합니다." }, db)
  else
    (.ok { status := "error", message := "알 수 없는 함수입니다." }, db)

/-! ### Retention (`cleanup_old_sessions`, `cleanup_old_messages`) -/

def MAX_SESSIONS_PER_USER : Nat := 15
def MAX_MESSAGES_PER_SESSION : Nat := 50
def MESSAGE_HISTORY_LIMIT : Nat := 10

/-- Descending order by session update time
(`order_by(updated_at.desc())`). -/
def sessUpdatedGe (a b : Sess) : Prop := b.updated_at ≤ a.updated_at

instance : DecidableRel sessUpdatedGe := fun a b =>
  Int.decLe b.updated_at a.updated_at

instance : IsTotal Sess sessUpdatedGe :=
  ⟨fun a b => (le_total b.updated_at a.updated_at).imp id id⟩

instance : IsTrans Sess sessUpdatedGe :=
  ⟨fun _ _ _ h1 h2 => le_trans h2 h1⟩

/-- Descending order by message creation time
(`order_by(created_at.desc())`). -/
def msgCreatedGe (a b : Msg) : Prop := b.created_at ≤ a.created_at

instance : DecidableRel msgCreatedGe := fun a b =>
  Int.decLe b.created_at a.created_at

/-- Ascending order by message creation time (`order_by(created_at)`). -/
def msgCreatedLe (a b : Msg) : Prop := a.created_at ≤ b.created_at

instance : DecidableRel msgCreatedLe := fun a b =>
  Int.decLe a.created_at b.created_at

/-- `db.delete(session)` for each listed session; the `messages`
relationship has `cascade="all, delete-orphan"`, so the sessions'
messages are deleted with them. -/
def deleteSessions (db : DB) (toDelete : List Sess) : DB :=
  { db with
    sessions := db.sessions.filter fun s => !(toDelete.any fun d => d.id == s.id),
    messages := db.messages.filter fun m => !(toDelete.any fun d => d.id == m.session_id) }

/-- `cleanup_old_sessions(db, user_uuid)` at wall-clock `now`: delete
the user's sessions not updated in 30 days, then drop whatever exceeds
the 15 most recently updated. -/
def cleanup_old_sessions (now : Int) (user_uuid : String) (db : DB) : DB :=
  let thirty_days_ago := now - thirtyDaysSec
  let inactive := db.sessions.filter fun s =>
    s.user_uuid == user_uuid && decide (s.updated_at < thirty_days_ago)
  let db1 := deleteSessions db inactive
  let sessions := List.insertionSort sessUpdatedGe
    (db1.sessions.filter fun s => s.user_uuid == user_uuid)
  if sessions.length > MAX_SESSIONS_PER_USER then
    deleteSessions db1 (sessions.drop MAX_SESSIONS_PER_USER)
  else db1

/-- `cleanup_old_messages(db, session_id)`: keep the 50 most recent
messages of the session. -/
def cleanup_old_messages (db : DB) (session_id : Nat) : DB :=
  let messages := List.insertionSort msgCreatedGe
    (db.messages.filter fun m => m.session_id == session_id)
  if messages.length > MAX_MESSAGES_PER_SESSION then
    let toDelete := messages.drop MAX_MESSAGES_PER_SESSION
    { db with messages := db.messages.filter fun m =>
        !(toDelete.any fun d => d.id == m.id) }
  else db

/-! ### Turn normalizer (`is_question_message`, `normalize_short_response`) -/

def question_patterns : List String :=
  ["?", "할까요", "하시겠어요", "하실래요", "괜찮으세요", "좋으세요", "어때요", "어떠세요"]

def is_question_message (message : String) : Bool :=
  question_patterns.any fun pattern => containsStr message pattern

def positive_patterns : List String :=
  ["응", "어", "ㅇ", "ㅇㅇ", "ᄋ", "ᄋᄋ", "네", "넵", "ㄴㅇ", "yes", "ok", "오키",
    "오케이", "좋아", "ㅇㅋ"]

def negative_patterns : List String :=
  ["노", "ㄴ", "ㄴㄴ", "ᄂ", "ᄂᄂ", "시름", "아니", "아뇨", "싫어", "no", "ㄴㄴ",
    "ㄴㄴㄴ", "노노"]

/-- `normalize_short_response(message, last_ai_message)`. -/
def normalize_short_response (message : String)
    (last_ai_message : Option String := none) : String × Bool :=
  match last_ai_message with
  | none => (message, false)
  | some la =>
    if !is_question_message la then (message, false)
    else
      let normalized_msg := pyLower (pyStrip message)
      if positive_patterns.contains normalized_msg then
        ("네, 그렇게 해주세요", true)
      else if negative_patterns.contains normalized_msg then
        ("아니요, 필요 없습니다", true)
      else (message, false)

/-! ### Conversation loop (`chat_with_ai`) -/

/-- One part of the oracle's first response: either a function-call
request or plain text (the router's `elif` gives the call priority when
a part carries both, which this sum type reflects). -/
inductive RespPart where
  | funcCall (name : String) (args : Args)
  | text (s : String)
deriving DecidableEq

/-- `route_search_data` captured from a successful `search_route`
dispatch (the dict's `requested` key is always `True`). -/
structure RouteData where
  start_location : Option String
  destination : Option String
deriving DecidableEq

/-- `weather_request_data` captured from a `get_weather_info` dispatch. -/
structure WeatherData where
  target_date : Option String
deriving DecidableEq

/-- Mutable locals threaded through the part-processing `for` loop. -/
structure LoopSt where
  db : DB
  function_called : Option String
  ai_text : String
  route : Option RouteData
  weather : Option WeatherData
deriving DecidableEq

/-- The oracle's second round trip: given the function name and dispatch
result, the text of `chat.send_message(function_response)`.  External
collaborator, passed in as a function. -/
abbrev Oracle2 := String → DispatchResult → String

/-- One iteration of the `for part in response.candidates[0].content.parts`
loop.  A dispatch exception is caught here and turned into the failure
text; the loop then continues with the next part. -/
def stepPart (user_uuid : String) (q2 : Oracle2) (st : LoopSt)
    (p : RespPart) : LoopSt :=
  match p with
  | .text s => { st with ai_text := s }
  | .funcCall name args =>
    let st := { st with function_called := some name }
    match execute_function_call name args user_uuid st.db with
    | (.ok result, db1) =>
      let route :=
        if name == "search_route" && result.status == "success"
            && result.action == some "search_route" then
          some ⟨result.start_location, result.destination⟩
        else st.route
      let weather :=
        if name == "get_weather_info" && result.action == some "get_weather" then
          some ⟨result.target_date⟩
        else st.weather
      { st with db := db1, route := route, weather := weather,
                ai_text := q2 name result }
    | (.error e, db1) =>
      { st with db := db1,
                ai_text := "함수 실행 중 오류가 발생했습니다: " ++ e }

/-- The whole part-processing loop. -/
def processParts (user_uuid : String) (q2 : Oracle2) (parts : List RespPart)
    (st : LoopSt) : LoopSt :=
  parts.foldl (stepPart user_uuid q2) st

/-- `ChatRequest` (the `context` payload only feeds prompt text, which
sits inside the opaque oracle; omitted). -/
structure ChatRequest where
  user_uuid : String
  message : String
  session_id : Option Nat := none
deriving DecidableEq

/-- `ChatResponse` as the endpoint constructs it (lines 771-782): every
field is passed explicitly, so the optional route/weather fields are
plain values here. -/
structure ChatResponse where
  success : Bool
  ai_response : String
  session_id : Nat
  message_id : Nat
  function_called : Option String
  route_search_requested : Bool
  start_location : Option String
  destination : Option String
  weather_requested : Bool
  weather_target_date : Option String
deriving DecidableEq

/-- The oracle's first round trip: the parts of the reply to the
assembled prompt.  The argument is the processed user utterance; the
preamble and history wrapped around it are not modelled (opaque
collaborator). -/
abbrev Oracle1 := String → List RespPart

/-- Python truthiness of the optional `session_id` (`if request.session_id:`
— `None` and `0` both take the create-new-session branch). -/
def truthyId : Option Nat → Bool
  | none => false
  | some n => n ≠ 0

/-- The `processed_message` computation (lines 524-538): when the recent
window contains an assistant message, normalize the inbound text against
the most recent one. -/
def processedUtterance (message : String) (recent : List Msg) : String :=
  if recent.isEmpty then message
  else
    match (recent.find? fun m => !m.is_user).map Msg.content with
    | none => message
    | some la => (normalize_short_response message (some la)).1

/-- `response.text` fallback: concatenation of the reply's text parts. -/
def textConcat (parts : List RespPart) : String :=
  parts.foldl (fun acc p => match p with | .text s => acc ++ s | _ => acc) ""

/-- What a successful turn produces: the database after the whole turn,
the response body, and (as the record of the oracle call's argument)
the utterance handed to the oracle. -/
structure TurnOut where
  db : DB
  resp : ChatResponse
  sentUtterance : String
deriving DecidableEq

/-- Everything `chat_with_ai` does up to and including PERSIST (lines
482-746): resolve user and session, build the recent window, normalize,
query the oracle, run the function-call loop, insert both messages and
bump the session timestamp.  Retention and response assembly follow in
`chat_with_ai`.  `Except` carries the 404 detail strings. -/
def chatCore (req : ChatRequest) (now : Int) (q1 : Oracle1) (q2 : Oracle2)
    (db : DB) : Except String (TurnOut × LoopSt × Sess) :=
  match db.users.find? fun u => u.uuid == req.user_uuid && !u.is_deleted with
  | none => .error "사용자를 찾을 수 없습니다."
  | some _ =>
    let sessE : Except String (Sess × DB) :=
      if truthyId req.session_id then
        match db.sessions.find? fun s =>
            s.id == req.session_id.getD 0 && s.user_uuid == req.user_uuid with
        | none => .error "세션을 찾을 수 없습니다."
        | some s => .ok (s, db)
      else
        let s : Sess := ⟨db.nextSessId, req.user_uuid, "새 대화", "general", now, now⟩
        .ok (s, { db with sessions := db.sessions ++ [s],
                          nextSessId := db.nextSessId + 1 })
    match sessE with
    | .error e => .error e
    | .ok (session, db1) =>
      let recent_messages := (List.insertionSort msgCreatedGe
        (db1.messages.filter fun m => m.session_id == session.id)).take
        MESSAGE_HISTORY_LIMIT
      let processed_message := processedUtterance req.message recent_messages
      let parts := q1 processed_message
      let st := processParts req.user_uuid q2 parts
        ⟨db1, none, "", none, none⟩
      let ai_response_text :=
        if st.ai_text == "" then textConcat parts else st.ai_text
      let db2 := st.db
      let user_message : Msg :=
        ⟨db2.nextMsgId, session.id, req.message, true, now⟩
      let ai_message : Msg :=
        ⟨db2.nextMsgId + 1, session.id, ai_response_text, false, now⟩
      let db3 :=
        { db2 with
          messages := db2.messages ++ [user_message, ai_message],
          nextMsgId := db2.nextMsgId + 2,
          sessions := db2.sessions.map fun s =>
            if s.id == session.id then { s with updated_at := now } else s }
      .ok (⟨db3,
            ⟨true, ai_response_text, session.id, ai_message.id,
              st.function_called,
              st.route.isSome,
              st.route.bind RouteData.start_location,
              st.route.bind RouteData.destination,
              st.weather.isSome,
              st.weather.bind WeatherData.target_date⟩,
            processed_message⟩,
           st, session)

/-- The `/api/ai/chat` endpoint: the core turn followed by the retention
step (lines 748-751) on the persisted state. -/
def chat_with_ai (req : ChatRequest) (now : Int) (q1 : Oracle1)
    (q2 : Oracle2) (db : DB) : Except String TurnOut :=
  match chatCore req now q1 q2 db with
  | .error e => .error e
  | .ok (out, _, session) =>
    let db4 := cleanup_old_messages out.db session.id
    let db5 := cleanup_old_sessions now req.user_uuid db4
    .ok { out with db := db5 }

/-! ### Session management endpoints -/

/-- One entry of the messages payload of
`GET /sessions/{session_id}/messages`. -/
structure MsgOut where
  id : Nat
  content : String
  is_user : Bool
  created_at : Int
deriving DecidableEq

def msgOut (m : Msg) : MsgOut := ⟨m.id, m.content, m.is_user, m.created_at⟩

/-- `GET /api/ai/sessions/{session_id}/messages` (lines 809-829): looks
the session up by id only — no ownership requirement — and returns all
its messages in creation order. -/
def get_session_messages (session_id : Nat) (db : DB) :
    Except String (List MsgOut) :=
  match db.sessions.find? fun s => s.id == session_id with
  | none => .error "세션을 찾을 수 없습니다."
  | some _ =>
    .ok ((List.insertionSort msgCreatedLe
      (db.messages.filter fun m => m.session_id == session_id)).map msgOut)

/-- `DELETE /api/ai/sessions/{session_id}` (lines 831-844): the session
must belong to the calling `user_uuid`. -/
def delete_session (session_id : Nat) (user_uuid : String) (db : DB) :
    Except String DB :=
  match db.sessions.find? fun s =>
      s.id == session_id && s.user_uuid == user_uuid with
  | none => .error "세션을 찾을 수 없습니다."
  | some s => .ok (deleteSessions db [s])

/-- `PATCH /api/ai/sessions/{session_id}` (lines 846-864): rename, again
requiring ownership. -/
def update_session (session_id : Nat) (user_uuid : String) (title : String)
    (db : DB) : Except String DB :=
  match db.sessions.find? fun s =>
      s.id == session_id && s.user_uuid == user_uuid with
  | none => .error "세션을 찾을 수 없습니다."
  | some s =>
    .ok { db with sessions := db.sessions.map fun x =>
            if x.id == s.id then { x with title := title } else x }

/-! ### The function registry's required-argument sets

These record, per registered function, the `required` lists of the
`FunctionDeclaration`s (lines 31-154) and the message each validation
branch returns; the validation branches of `execute_function_call`
enforce exactly these sets. -/

def registeredFunctions : List String :=
  ["create_schedule", "create_alarm", "get_schedule_info", "update_schedule",
    "delete_schedule", "update_alarm", "delete_alarm", "search_route",
    "get_weather_info"]

def requiredKeys (name : String) : List String :=
  if name == "create_schedule" then ["title", "start_time"]
  else if name == "create_alarm" then ["time", "label"]
  else if name == "get_schedule_info" then []
  else if name == "update_schedule" then ["title"]
  else if name == "delete_schedule" then ["title"]
  else if name == "update_alarm" then ["label"]
  else if name == "delete_alarm" then ["label"]
  else if name == "search_route" then ["destination"]
  else if name == "get_weather_info" then ["target_date"]
  else []

/-- The message of each function's missing-required-argument branch;
each names the required field(s) of the function. -/
def missingFieldMsg (name : String) : String :=
  if name == "create_schedule" then "제목과 시작 시간이 필요합니다."
  else if name == "create_alarm" then "시간과 레이블이 필요합니다."
  else if name == "update_schedule" then "수정할 일정 제목이 필요합니다."
  else if name == "delete_schedule" then "삭제할 일정 제목이 필요합니다."
  else if name == "update_alarm" then "수정할 알람 레이블이 필요합니다."
  else if name == "delete_alarm" then "삭제할 알람 레이블이 필요합니다."
  else if name == "search_route" then "도착지가 필요합니다."
  else if name == "get_weather_info" then "날짜 정보가 필요합니다."
  else ""

/-! ### Helper lemmas -/

/-- Validation short-circuits execution: a registered function invoked
with one of its required argument keys absent or empty returns the
in-band error result for that function and leaves the database as it
was. -/
theorem exec_missing_required (name : String) (args : Args) (uuid : String)
    (db : DB) (hmem : name ∈ registeredFunctions)
    (hmiss : ∃ k ∈ requiredKeys name, truthy (argGet args k) = false) :
    execute_function_call name args uuid db
      = (.ok { status := "error", message := missingFieldMsg name }, db) := by
  simp only [registeredFunctions, List.mem_cons, List.not_mem_nil, or_false] at hmem
  obtain ⟨k, hk, hkf⟩ := hmiss
  rcases hmem with rfl | rfl | rfl | rfl | rfl | rfl | rfl | rfl | rfl <;>
    simp [requiredKeys] at hk
  · rcases hk with rfl | rfl <;>
      simp [execute_function_call, missingFieldMsg, hkf]
  · rcases hk with rfl | rfl <;>
      simp [execute_function_call, missingFieldMsg, hkf]
  · subst hk
    simp [execute_function_call, missingFieldMsg, hkf]
  · subst hk
    simp [execute_function_call, missingFieldMsg, hkf]
  · subst hk
    simp [execute_function_call, missingFieldMsg, hkf]
  · subst hk
    simp [execute_function_call, missingFieldMsg, hkf]
  · subst hk
    simp [execute_function_call, missingFieldMsg, hkf]
  · subst hk
    simp [execute_function_call, missingFieldMsg, hkf]

/-! ### Claims -/

/-- C1: for every dispatched function call, if any required argument key
is absent or empty, `execute_function_call` returns a result with status
`"error"` whose message is that function's validation message naming
its required field(s), and the database is returned exactly as it was —
zero repository mutations before or after the validation check. -/
theorem C1_validation_no_mutation (name : String) (args : Args)
    (uuid : String) (db : DB) (hmem : name ∈ registeredFunctions)
    (hmiss : ∃ k ∈ requiredKeys name, truthy (argGet args k) = false) :
    execute_function_call name args uuid db
      = (.ok { status := "error", message := missingFieldMsg name }, db) :=
  exec_missing_required name args uuid db hmem hmiss

/-- Witness for C1: `create_schedule` with the required `start_time`
absent yields the in-band error and an untouched database. -/
theorem C1_validation_no_mutation_witness :
    execute_function_call "create_schedule" [("title", "회의")] "u" DB.empty
      = (.ok { status := "error", message := "제목과 시작 시간이 필요합니다." },
         DB.empty) :=
  C1_validation_no_mutation "create_schedule" [("title", "회의")] "u" DB.empty
    (by decide) ⟨"start_time", by decide, by decide⟩

/-- C9: `normalize_short_response` is idempotent — applied to its own
output (with the same prior assistant text) it returns that output
unchanged, with `wasNormalized = false`, because a canonical affirmative
or negative sentence no longer matches the short-token sets. -/
theorem C9_normalize_idempotent (message : String)
    (last_ai_message : Option String) :
    normalize_short_response
        (normalize_short_response message last_ai_message).1 last_ai_message
      = ((normalize_short_response message last_ai_message).1, false) := by
  cases last_ai_message with
  | none => simp [normalize_short_response]
  | some la =>
    by_cases hq : is_question_message la
    · by_cases hp : pyLower (pyStrip message) ∈ positive_patterns
      · have h1 : normalize_short_response message (some la)
            = ("네, 그렇게 해주세요", true) := by
          simp [normalize_short_response, hq, hp]
        rw [h1]
        have e1 : pyLower (pyStrip "네, 그렇게 해주세요") = "네, 그렇게 해주세요" := by
          decide
        simp [normalize_short_response, hq, e1,
          (by decide : ("네, 그렇게 해주세요" : String) ∉ positive_patterns),
          (by decide : ("네, 그렇게 해주세요" : String) ∉ negative_patterns)]
      · by_cases hn : pyLower (pyStrip message) ∈ negative_patterns
        · have h1 : normalize_short_response message (some la)
              = ("아니요, 필요 없습니다", true) := by
            simp [normalize_short_response, hq, hp, hn]
          rw [h1]
          have e1 : pyLower (pyStrip "아니요, 필요 없습니다") = "아니요, 필요 없습니다" := by
            decide
          simp [normalize_short_response, hq, e1,
            (by decide : ("아니요, 필요 없습니다" : String) ∉ positive_patterns),
            (by decide : ("아니요, 필요 없습니다" : String) ∉ negative_patterns)]
        · have h1 : normalize_short_response message (some la)
              = (message, false) := by
            simp [normalize_short_response, hq, hp, hn]
          rw [h1]
          simp [normalize_short_response, hq, hp, hn]
    · simp [normalize_short_response, hq]

/-- The dispatcher's business-rule failure conditions: a registered
function with a missing/empty required argument, an update/delete whose
identifier matches no record of the user, an out-of-enum weather day
selector, or an unknown function name. -/
def businessRuleFailure (name : String) (args : Args) (uuid : String)
    (db : DB) : Prop :=
  (name ∈ registeredFunctions ∧ ∃ k ∈ requiredKeys name, truthy (argGet args k) = false)
  ∨ (name = "update_schedule" ∧ truthy (argGet args "title") = true ∧
      db.calendars.find? (fun c => c.user_uuid == uuid
        && c.event_title == (argGet args "title").getD "") = none)
  ∨ (name = "delete_schedule" ∧ truthy (argGet args "title") = true ∧
      db.calendars.find? (fun c => c.user_uuid == uuid
        && c.event_title == (argGet args "title").getD "") = none)
  ∨ (name = "update_alarm" ∧ truthy (argGet args "label") = true ∧
      db.alarms.find? (fun a => a.user_uuid == uuid
        && a.label == (argGet args "label").getD "") = none)
  ∨ (name = "delete_alarm" ∧ truthy (argGet args "label") = true ∧
      db.alarms.find? (fun a => a.user_uuid == uuid
        && a.label == (argGet args "label").getD "") = none)
  ∨ (name = "get_weather_info" ∧ truthy (argGet args "target_date") = true ∧
      (["today", "tomorrow", "day_after_tomorrow"].contains
        ((argGet args "target_date").getD "")) = false)
  ∨ name ∉ registeredFunctions

/-- C5 counterexample: a malformed datetime argument is not returned as
an in-band error result — `datetime.fromisoformat` raises `ValueError`
out of `execute_function_call`, so Dispatch does raise to its caller for
a malformed (non-missing) argument. -/
theorem C5_counterexample :
    execute_function_call "create_schedule"
        [("title", "회의"), ("start_time", "내일")] "u" DB.empty
      = (.error "ValueError: Invalid isoformat string: 내일", DB.empty) := rfl

/-- C5 (amended): for every dispatch with a business-rule failure of the
kinds the code checks — missing required argument, missing record,
invalid enum value, unknown function — `execute_function_call` does not
raise: it returns an in-band result with status `"error"` and the
database unchanged.  (Malformed datetime arguments are the exception:
they raise `ValueError`, which the conversation loop catches one level
up; see the counterexample.) -/
theorem C5_business_failures_in_band (name : String) (args : Args)
    (uuid : String) (db : DB) (h : businessRuleFailure name args uuid db) :
    ∃ r, execute_function_call name args uuid db = (.ok r, db)
      ∧ r.status = "error" := by
  rcases h with ⟨hmem, hmiss⟩ | ⟨rfl, ht, hfind⟩ | ⟨rfl, ht, hfind⟩
    | ⟨rfl, ht, hfind⟩ | ⟨rfl, ht, hfind⟩ | ⟨rfl, ht, hvalid⟩ | hmem
  · exact ⟨_, exec_missing_required name args uuid db hmem hmiss, rfl⟩
  · exact ⟨{ status := "error",
             message := "'" ++ (argGet args "title").getD ""
               ++ "' 일정을 찾을 수 없습니다." },
      by simp [execute_function_call, ht, hfind], rfl⟩
  · exact ⟨{ status := "error",
             message := "'" ++ (argGet args "title").getD ""
               ++ "' 일정을 찾을 수 없습니다." },
      by simp [execute_function_call, ht, hfind], rfl⟩
  · exact ⟨{ status := "error",
             message := "'" ++ (argGet args "label").getD ""
               ++ "' 알람을 찾을 수 없습니다." },
      by simp [execute_function_call, ht, hfind], rfl⟩
  · exact ⟨{ status := "error",
             message := "'" ++ (argGet args "label").getD ""
               ++ "' 알람을 찾을 수 없습니다." },
      by simp [execute_function_call, ht, hfind], rfl⟩
  · have hv : ¬((argGet args "target_date").getD "" = "today")
        ∧ ¬((argGet args "target_date").getD "" = "tomorrow")
        ∧ ¬((argGet args "target_date").getD "" = "day_after_tomorrow") := by
      simpa using hvalid
    exact ⟨{ status := "error",
             message := "현재는 모레까지의 날씨만 알려드릴 수 있어요" },
      by simp [execute_function_call, ht, hv.1, hv.2.1, hv.2.2], rfl⟩
  · simp only [registeredFunctions, List.mem_cons, List.not_mem_nil,
      or_false, not_or] at hmem
    obtain ⟨h1, h2, h3, h4, h5, h6, h7, h8, h9⟩ := hmem
    exact ⟨{ status := "error", message := "알 수 없는 함수입니다." },
      by simp [execute_function_call, h1, h2, h3, h4, h5, h6, h7, h8, h9],
      rfl⟩

/-- Witness for C5: an unknown function name yields the in-band error. -/
theorem C5_business_failures_in_band_witness :
    ∃ r, execute_function_call "unknown_function" [] "u" DB.empty
      = (.ok r, DB.empty) ∧ r.status = "error" :=
  C5_business_failures_in_band "unknown_function" [] "u" DB.empty
    (by right; right; right; right; right; right; decide)

/-- The database of the C3 counterexample: one calendar event of user
`"u"` titled `"팀 회의"`. -/
def c3db : DB :=
  { DB.empty with
    calendars := [⟨1, "u", "팀 회의", 0, none, none, none⟩],
    nextCalId := 2 }

/-- C3 counterexample: the identifier `"회의"` substring-matches the
stored title `"팀 회의"`, yet both `update_schedule` and
`delete_schedule` return an error and change nothing — the code matches
the title by exact equality, not by substring. -/
theorem C3_counterexample :
    containsStr "팀 회의" "회의" = true
    ∧ execute_function_call "update_schedule"
        [("title", "회의"), ("new_title", "회의2")] "u" c3db
      = (.ok { status := "error", message := "'회의' 일정을 찾을 수 없습니다." }, c3db)
    ∧ execute_function_call "delete_schedule" [("title", "회의")] "u" c3db
      = (.ok { status := "error", message := "'회의' 일정을 찾을 수 없습니다." }, c3db) :=
  ⟨by decide, rfl, rfl⟩

/-- C3 (amended): every update/delete dispatch with the identifier
present locates the first stored record of that user whose title/label
EXACTLY EQUALS the identifier (no substring matching and no day-range
filter); if none matches, it returns an error result and changes
nothing; otherwise it applies the requested change to that record and
returns success (shown for the delete operations in general and for the
updates applying the supplied new title/label). -/
theorem C3_locate_by_exact_match (db : DB) (uuid : String) :
    (∀ (args : Args) (t : String), argGet args "title" = some t → t ≠ "" →
      (∀ c ∈ db.calendars, ¬(c.user_uuid = uuid ∧ c.event_title = t)) →
      execute_function_call "update_schedule" args uuid db
        = (.ok { status := "error",
                 message := "'" ++ t ++ "' 일정을 찾을 수 없습니다." }, db)
      ∧ execute_function_call "delete_schedule" args uuid db
        = (.ok { status := "error",
                 message := "'" ++ t ++ "' 일정을 찾을 수 없습니다." }, db))
    ∧ (∀ (args : Args) (lb : String), argGet args "label" = some lb → lb ≠ "" →
      (∀ a ∈ db.alarms, ¬(a.user_uuid = uuid ∧ a.label = lb)) →
      execute_function_call "update_alarm" args uuid db
        = (.ok { status := "error",
                 message := "'" ++ lb ++ "' 알람을 찾을 수 없습니다." }, db)
      ∧ execute_function_call "delete_alarm" args uuid db
        = (.ok { status := "error",
                 message := "'" ++ lb ++ "' 알람을 찾을 수 없습니다." }, db))
    ∧ (∀ (t : String) (ev : Calendar), t ≠ "" →
      db.calendars.find? (fun c => c.user_uuid == uuid && c.event_title == t)
        = some ev →
      execute_function_call "delete_schedule" [("title", t)] uuid db
        = (.ok { status := "success",
                 message := "'" ++ ev.event_title ++ "' 일정이 삭제되었습니다." },
           { db with calendars := db.calendars.filter fun c => c.id != ev.id }))
    ∧ (∀ (lb : String) (al : Alarm), lb ≠ "" →
      db.alarms.find? (fun a => a.user_uuid == uuid && a.label == lb) = some al →
      execute_function_call "delete_alarm" [("label", lb)] uuid db
        = (.ok { status := "success",
                 message := "'" ++ al.label ++ "' 알람이 삭제되었습니다." },
           { db with alarms := db.alarms.filter fun a => a.id != al.id }))
    ∧ (∀ (t nt : String) (ev : Calendar), t ≠ "" → nt ≠ "" →
      db.calendars.find? (fun c => c.user_uuid == uuid && c.event_title == t)
        = some ev →
      execute_function_call "update_schedule" [("title", t), ("new_title", nt)]
          uuid db
        = (.ok { status := "success",
                 message := "'" ++ t ++ "' 일정이 수정되었습니다." },
           updateCal db ev.id fun c => { c with event_title := nt }))
    ∧ (∀ (lb nl : String) (al : Alarm), lb ≠ "" → nl ≠ "" →
      db.alarms.find? (fun a => a.user_uuid == uuid && a.label == lb) = some al →
      execute_function_call "update_alarm" [("label", lb), ("new_label", nl)]
          uuid db
        = (.ok { status := "success",
                 message := "'" ++ lb ++ "' 알람이 수정되었습니다." },
           updateAlarm db al.id fun a => { a with label := nl })) := by
  refine ⟨?_, ?_, ?_, ?_, ?_, ?_⟩
  · intro args t ha ht hnone
    have hfind : db.calendars.find? (fun c => c.user_uuid == uuid
        && c.event_title == t) = none := by
      rw [List.find?_eq_none]
      intro c hc
      simpa using hnone c hc
    constructor <;> simp [execute_function_call, truthy, ha, ht, hfind]
  · intro args lb ha hlb hnone
    have hfind : db.alarms.find? (fun a => a.user_uuid == uuid
        && a.label == lb) = none := by
      rw [List.find?_eq_none]
      intro a hc
      simpa using hnone a hc
    constructor <;> simp [execute_function_call, truthy, ha, hlb, hfind]
  · intro t ev ht hfind
    simp [execute_function_call, argGet, truthy, List.lookup, ht, hfind]
  · intro lb al hlb hfind
    simp [execute_function_call, argGet, truthy, List.lookup, hlb, hfind]
  · intro t nt ev ht hnt hfind
    simp [execute_function_call, argGet, truthy, List.lookup, ht, hnt, hfind]
  · intro lb nl al hlb hnl hfind
    simp [execute_function_call, argGet, truthy, List.lookup, hlb, hnl, hfind]

/-- The database of the C3 witness: one calendar event and one alarm. -/
def c3wdb : DB :=
  { DB.empty with
    calendars := [⟨1, "u", "팀 회의", 0, none, none, none⟩],
    alarms := [⟨1, "u", 0, "기상", true, none⟩],
    nextCalId := 2,
    nextAlarmId := 2 }

/-- Witness for C3 (amended), instantiating all six components at a
concrete database. -/
theorem C3_locate_by_exact_match_witness :
    (execute_function_call "update_schedule" [("title", "없음")] "u" c3wdb
      = (.ok { status := "error", message := "'없음' 일정을 찾을 수 없습니다." }, c3wdb)
    ∧ execute_function_call "delete_schedule" [("title", "없음")] "u" c3wdb
      = (.ok { status := "error", message := "'없음' 일정을 찾을 수 없습니다." }, c3wdb))
    ∧ (execute_function_call "update_alarm" [("label", "취침")] "u" c3wdb
      = (.ok { status := "error", message := "'취침' 알람을 찾을 수 없습니다." }, c3wdb)
    ∧ execute_function_call "delete_alarm" [("label", "취침")] "u" c3wdb
      = (.ok { status := "error", message := "'취침' 알람을 찾을 수 없습니다." }, c3wdb))
    ∧ execute_function_call "delete_schedule" [("title", "팀 회의")] "u" c3wdb
      = (.ok { status := "success", message := "'팀 회의' 일정이 삭제되었습니다." },
         { c3wdb with calendars := c3wdb.calendars.filter fun c => c.id != 1 })
    ∧ execute_function_call "delete_alarm" [("label", "기상")] "u" c3wdb
      = (.ok { status := "success", message := "'기상' 알람이 삭제되었습니다." },
         { c3wdb with alarms := c3wdb.alarms.filter fun a => a.id != 1 })
    ∧ execute_function_call "update_schedule"
        [("title", "팀 회의"), ("new_title", "전체 회의")] "u" c3wdb
      = (.ok { status := "success", message := "'팀 회의' 일정이 수정되었습니다." },
         updateCal c3wdb 1 fun c => { c with event_title := "전체 회의" })
    ∧ execute_function_call "update_alarm"
        [("label", "기상"), ("new_label", "아침 기상")] "u" c3wdb
      = (.ok { status := "success", message := "'기상' 알람이 수정되었습니다." },
         updateAlarm c3wdb 1 fun a => { a with label := "아침 기상" }) := by
  have h := C3_locate_by_exact_match c3wdb "u"
  exact ⟨h.1 [("title", "없음")] "없음" rfl (by decide) (by decide),
    h.2.1 [("label", "취침")] "취침" rfl (by decide) (by decide),
    h.2.2.1 "팀 회의" ⟨1, "u", "팀 회의", 0, none, none, none⟩ (by decide) (by decide),
    h.2.2.2.1 "기상" ⟨1, "u", 0, "기상", true, none⟩ (by decide) (by decide),
    h.2.2.2.2.1 "팀 회의" "전체 회의" ⟨1, "u", "팀 회의", 0, none, none, none⟩
      (by decide) (by decide) (by decide),
    h.2.2.2.2.2 "기상" "아침 기상" ⟨1, "u", 0, "기상", true, none⟩
      (by decide) (by decide) (by decide)⟩

/-- A function-call part always hands the loop the database returned by
its dispatch, whether the dispatch returned normally or raised. -/
theorem stepPart_funcCall_db (uuid : String) (q2 : Oracle2) (st : LoopSt)
    (n : String) (a : Args) :
    (stepPart uuid q2 st (.funcCall n a)).db
      = (execute_function_call n a uuid st.db).2 := by
  simp only [stepPart]
  rcases h : execute_function_call n a uuid st.db with ⟨fst, snd⟩
  cases fst <;> simp

/-- A function-call part always records its name as `function_called`,
whether the dispatch returned normally or raised. -/
theorem stepPart_funcCall_called (uuid : String) (q2 : Oracle2) (st : LoopSt)
    (n : String) (a : Args) :
    (stepPart uuid q2 st (.funcCall n a)).function_called = some n := by
  simp only [stepPart]
  rcases h : execute_function_call n a uuid st.db with ⟨fst, snd⟩
  cases fst <;> simp

/-- The database of the C2 counterexample: one registered user. -/
def c2db : DB := { DB.empty with users := [⟨1, "u", false⟩] }

/-- C2 counterexample: an oracle response with TWO function-call parts
(two `create_alarm` requests) leads the turn to dispatch BOTH — after
the turn both alarms exist, and `function_called` reports the second
call's name — contradicting that only the first encountered call is
dispatched and the remaining parts are not executed. -/
theorem C2_counterexample :
    (chat_with_ai ⟨"u", "알람 두 개 설정해줘", none⟩ 1000000000
        (fun _ =>
          [.funcCall "create_alarm"
              [("time", "2025-01-02T07:00:00"), ("label", "운동")],
           .funcCall "create_alarm"
              [("time", "2025-01-02T08:00:00"), ("label", "산책")]])
        (fun _ _ => "done") c2db).map
      (fun o => (o.db.alarms.map Alarm.label, o.resp.function_called))
    = .ok (["운동", "산책"], some "create_alarm") := rfl

/-- C2 (amended): every function-call part of the oracle response is
dispatched, in order — the loop's final database is the left fold of
`execute_function_call` over all the calls, and `function_called` ends
as the name of the LAST call, not the first. -/
theorem C2_every_call_dispatched (uuid : String) (q2 : Oracle2) :
    (∀ (calls : List (String × Args)) (st : LoopSt),
      (processParts uuid q2 (calls.map fun c => RespPart.funcCall c.1 c.2) st).db
        = calls.foldl (fun d c => (execute_function_call c.1 c.2 uuid d).2) st.db)
    ∧ (∀ (cs : List (String × Args)) (c : String × Args) (st : LoopSt),
      (processParts uuid q2
          ((cs ++ [c]).map fun p => RespPart.funcCall p.1 p.2) st).function_called
        = some c.1) := by
  constructor
  · intro calls
    induction calls with
    | nil => intro st; rfl
    | cons c cs ih =>
      intro st
      have h1 : (stepPart uuid q2 st (.funcCall c.1 c.2)).db
          = (execute_function_call c.1 c.2 uuid st.db).2 :=
        stepPart_funcCall_db uuid q2 st c.1 c.2
      simp only [List.map_cons, processParts, List.foldl_cons] at ih ⊢
      rw [ih, h1]
  · intro cs c st
    simp only [processParts, List.map_append, List.map_cons, List.map_nil,
      List.foldl_append, List.foldl_cons, List.foldl_nil]
    exact stepPart_funcCall_called uuid q2 _ c.1 c.2

/-- Message retention never touches the calendar table. -/
theorem cleanup_old_messages_calendars (db : DB) (sid : Nat) :
    (cleanup_old_messages db sid).calendars = db.calendars := by
  simp only [cleanup_old_messages]
  split <;> rfl

/-- Message retention never touches the alarm table. -/
theorem cleanup_old_messages_alarms (db : DB) (sid : Nat) :
    (cleanup_old_messages db sid).alarms = db.alarms := by
  simp only [cleanup_old_messages]
  split <;> rfl

/-- Session retention never touches the calendar table. -/
theorem cleanup_old_sessions_calendars (now : Int) (uuid : String) (db : DB) :
    (cleanup_old_sessions now uuid db).calendars = db.calendars := by
  simp only [cleanup_old_sessions, deleteSessions]
  split <;> rfl

/-- Session retention never touches the alarm table. -/
theorem cleanup_old_sessions_alarms (now : Int) (uuid : String) (db : DB) :
    (cleanup_old_sessions now uuid db).alarms = db.alarms := by
  simp only [cleanup_old_sessions, deleteSessions]
  split <;> rfl

/-- A `search_route` dispatch with a destination but no start location
returns the pending result with the location-confirmation flag and
leaves the database untouched. -/
theorem search_route_pending (args : Args) (uuid d : String) (db : DB)
    (hd : argGet args "destination" = some d) (hne : d ≠ "")
    (hs : truthy (argGet args "start_location") = false) :
    execute_function_call "search_route" args uuid db
      = (.ok { status := "pending",
               message := "현재 위치를 출발지로 사용할까요?",
               require_location_confirmation := some true,
               destination := some d }, db) := by
  have htd : truthy (some d) = true := by simp [truthy, hne]
  simp [execute_function_call, hd, htd, hs]

/-- The database of the C4 counterexample: one registered user. -/
def c4db : DB := { DB.empty with users := [⟨1, "u", false⟩] }

/-- C4 counterexample: for a destination-only route request the
dispatcher does return the pending result with the confirmation flag and
mutates nothing — but the turn response surfaces NO pending-action flag
of any kind: `route_search_requested` is `false` and the route fields
are absent; the caller only sees `function_called = "search_route"`.
There is no `pendingAction` field carrying `confirm_current_location`. -/
theorem C4_counterexample :
    execute_function_call "search_route" [("destination", "서울역")] "u" c4db
      = (.ok { status := "pending",
               message := "현재 위치를 출발지로 사용할까요?",
               require_location_confirmation := some true,
               destination := some "서울역" }, c4db)
    ∧ (chat_with_ai ⟨"u", "서울역 가는 길", none⟩ 1000000000
        (fun _ => [.funcCall "search_route" [("destination", "서울역")]])
        (fun _ _ => "현재 위치를 출발지로 사용할까요?") c4db).map
      (fun o => (o.resp.route_search_requested, o.resp.start_location,
        o.resp.destination, o.resp.function_called,
        o.db.calendars, o.db.alarms))
      = .ok (false, none, none, some "search_route", [], []) :=
  ⟨rfl, rfl⟩

/-- C4 (amended): a `search_route` dispatch with a destination but no
start location returns `pending` with the location-confirmation flag and
performs no repository mutation; the Conversation Loop, however, does
not surface any pending-action flag to the external caller — the turn
response leaves `route_search_requested` false and the route fields
unset, and only `function_called = "search_route"` (plus the assistant
text) reaches the caller. -/
theorem C4_pending_not_surfaced :
    (∀ (args : Args) (uuid d : String) (db : DB),
      argGet args "destination" = some d → d ≠ "" →
      truthy (argGet args "start_location") = false →
      execute_function_call "search_route" args uuid db
        = (.ok { status := "pending",
                 message := "현재 위치를 출발지로 사용할까요?",
                 require_location_confirmation := some true,
                 destination := some d }, db))
    ∧ (∀ (req : ChatRequest) (now : Int) (q2 : Oracle2) (db : DB) (d : String),
      req.session_id = none →
      (db.users.find? fun u => u.uuid == req.user_uuid && !u.is_deleted).isSome →
      d ≠ "" →
      (chat_with_ai req now
          (fun _ => [.funcCall "search_route" [("destination", d)]]) q2 db).map
        (fun o => (o.resp.route_search_requested, o.resp.start_location,
          o.resp.destination, o.resp.function_called,
          o.db.calendars, o.db.alarms))
        = .ok (false, none, none, some "search_route",
               db.calendars, db.alarms)) := by
  constructor
  · intro args uuid d db hd hne hs
    exact search_route_pending args uuid d db hd hne hs
  · intro req now q2 db d hsid hu hne
    obtain ⟨u, hu⟩ := Option.isSome_iff_exists.mp hu
    have hdispAll : ∀ db0 : DB,
        execute_function_call "search_route" [("destination", d)]
            req.user_uuid db0
          = (.ok { status := "pending",
                   message := "현재 위치를 출발지로 사용할까요?",
                   require_location_confirmation := some true,
                   destination := some d }, db0) := fun db0 =>
      search_route_pending [("destination", d)] req.user_uuid d db0
        (by simp [argGet, List.lookup]) hne
        (by simp [argGet, truthy, List.lookup])
    simp only [chat_with_ai, chatCore, hu, hsid, truthyId, Bool.false_eq_true,
      if_false, processParts, List.foldl_cons, List.foldl_nil, stepPart,
      hdispAll]
    simp [Except.map, cleanup_old_messages_calendars, cleanup_old_messages_alarms,
      cleanup_old_sessions_calendars, cleanup_old_sessions_alarms]

/-- Witness for C4 (amended): both components at concrete inputs. -/
theorem C4_pending_not_surfaced_witness :
    execute_function_call "search_route" [("destination", "서울역")] "u" DB.empty
      = (.ok { status := "pending",
               message := "현재 위치를 출발지로 사용할까요?",
               require_location_confirmation := some true,
               destination := some "서울역" }, DB.empty)
    ∧ (chat_with_ai ⟨"u", "서울역 가는 길", none⟩ 1000000000
        (fun _ => [.funcCall "search_route" [("destination", "서울역")]])
        (fun _ _ => "안내해 드릴게요") c4db).map
      (fun o => (o.resp.route_search_requested, o.resp.start_location,
        o.resp.destination, o.resp.function_called,
        o.db.calendars, o.db.alarms))
      = .ok (false, none, none, some "search_route", [], []) :=
  ⟨C4_pending_not_surfaced.1 [("destination", "서울역")] "u" "서울역" DB.empty
      (by decide) (by decide) (by decide),
    C4_pending_not_surfaced.2 ⟨"u", "서울역 가는 길", none⟩ 1000000000
      (fun _ _ => "안내해 드릴게요") c4db "서울역" rfl (by decide) (by decide)⟩

/-- C6: for every successful turn, the persisted user `Message` carries
the original raw `request.message` exactly as received, while the
utterance handed to the oracle is the Turn Normalizer's output
(`processedUtterance`, lines 524-538) computed over the session's recent
window — normalization affects only what the oracle sees, never the
stored record. -/
theorem C6_raw_text_persisted (req : ChatRequest) (now : Int) (q1 : Oracle1)
    (q2 : Oracle2) (db : DB) (out : TurnOut) (st : LoopSt) (sess : Sess)
    (h : chatCore req now q1 q2 db = .ok (out, st, sess)) :
    (∃ pre um am, out.db.messages = pre ++ [um, am]
      ∧ um.content = req.message ∧ um.is_user = true
      ∧ um.session_id = sess.id)
    ∧ out.sentUtterance
      = processedUtterance req.message
          ((List.insertionSort msgCreatedGe
            (db.messages.filter fun m => m.session_id == sess.id)).take
            MESSAGE_HISTORY_LIMIT) := by
  unfold chatCore at h
  cases hu : db.users.find? fun u => u.uuid == req.user_uuid && !u.is_deleted with
  | none => rw [hu] at h; exact absurd h (by simp)
  | some u =>
    rw [hu] at h
    by_cases hsid : truthyId req.session_id = true
    · simp only [hsid, if_true, if_pos] at h
      cases hs : db.sessions.find? fun s =>
          s.id == req.session_id.getD 0 && s.user_uuid == req.user_uuid with
      | none => rw [hs] at h; exact absurd h (by simp)
      | some s =>
        rw [hs] at h
        simp only [Except.ok.injEq, Prod.mk.injEq] at h
        obtain ⟨hout, -, hsess⟩ := h
        subst hout
        subst hsess
        exact ⟨⟨_, _, _, rfl, rfl, rfl, rfl⟩, rfl⟩
    · simp only [hsid, if_false, Bool.not_eq_true] at h
      rw [if_neg (by simp [hsid])] at h
      simp only [Except.ok.injEq, Prod.mk.injEq] at h
      obtain ⟨hout, -, hsess⟩ := h
      subst hout
      subst hsess
      exact ⟨⟨_, _, _, rfl, rfl, rfl, rfl⟩, rfl⟩

/-- The database of the C6 witness: one user, one session holding a
prior exchange that ends with an assistant question. -/
def c6db : DB :=
  { DB.empty with
    users := [⟨1, "u", false⟩],
    sessions := [⟨1, "u", "대화", "general", 0, 0⟩],
    messages := [⟨1, 1, "나나 알람 삭제해줘", true, 10⟩,
                 ⟨2, 1, "알람 레이블이 '나나'인 알람을 삭제할까요?", false, 11⟩],
    nextSessId := 2,
    nextMsgId := 3 }

/-- Witness for C6: after the terse reply `"응"` to an assistant
question, the oracle receives the canonical affirmative sentence while
the stored user message stays `"응"`. -/
theorem C6_raw_text_persisted_witness :
    ∃ out st sess,
      chatCore ⟨"u", "응", some 1⟩ 1000
          (fun u => [.text ("응답:" ++ u)]) (fun _ _ => "") c6db
        = .ok (out, st, sess)
      ∧ out.sentUtterance = "네, 그렇게 해주세요"
      ∧ (∃ pre um am, out.db.messages = pre ++ [um, am]
          ∧ um.content = "응" ∧ um.is_user = true
          ∧ um.session_id = sess.id) := by
  refine ⟨_, _, _, rfl, by decide, ?_⟩
  exact (C6_raw_text_persisted ⟨"u", "응", some 1⟩ 1000
      (fun u => [.text ("응답:" ++ u)]) (fun _ _ => "") c6db _ _ _ rfl).1

/-- C10 (implicit): listing a session's messages performs no ownership
check — the endpoint takes no caller identity at all, and for every
existing session it returns all of that session's messages, whoever owns
it; whereas deleting or renaming a session with a `user_uuid` different
from the owner's fails with the not-found error, and deleting with the
owner's `user_uuid` succeeds. -/
theorem C10_messages_without_ownership (db : DB) (sid : Nat) (s : Sess)
    (u : String) (hnd : (db.sessions.map Sess.id).Nodup)
    (hs : s ∈ db.sessions) (hid : s.id = sid) :
    (∃ l, get_session_messages sid db = .ok l
      ∧ ∀ m ∈ db.messages, m.session_id = sid → msgOut m ∈ l)
    ∧ (s.user_uuid ≠ u →
        (∀ title, update_session sid u title db = .error "세션을 찾을 수 없습니다.")
        ∧ delete_session sid u db = .error "세션을 찾을 수 없습니다.")
    ∧ delete_session sid s.user_uuid db = .ok (deleteSessions db [s]) := by
  have huniq : ∀ x ∈ db.sessions, x.id = s.id → x = s := fun x hx he =>
    List.inj_on_of_nodup_map hnd hx hs he
  refine ⟨?_, ?_, ?_⟩
  · cases hf : db.sessions.find? fun x => x.id == sid with
    | none =>
      exfalso
      exact absurd (List.find?_eq_none.mp hf s hs) (by simp [hid])
    | some x =>
      refine ⟨(List.insertionSort msgCreatedLe
          (db.messages.filter fun m => m.session_id == sid)).map msgOut,
        by simp [get_session_messages, hf], ?_⟩
      intro m hm hmsid
      exact List.mem_map_of_mem msgOut
        ((List.mem_insertionSort msgCreatedLe).mpr
          (List.mem_filter.mpr ⟨hm, by simp [hmsid]⟩))
  · intro hne
    have hf : db.sessions.find?
        (fun x => x.id == sid && x.user_uuid == u) = none := by
      rw [List.find?_eq_none]
      intro x hx hpx
      simp only [Bool.and_eq_true, beq_iff_eq] at hpx
      exact hne (huniq x hx (hpx.1.trans hid.symm) ▸ hpx.2)
    exact ⟨fun title => by simp [update_session, hf], by simp [delete_session, hf]⟩
  · have hf : db.sessions.find?
        (fun x => x.id == sid && x.user_uuid == s.user_uuid) = some s := by
      cases hf : db.sessions.find?
          (fun x => x.id == sid && x.user_uuid == s.user_uuid) with
      | none =>
        exfalso
        exact absurd (List.find?_eq_none.mp hf s hs) (by simp [hid])
      | some x =>
        have hpx := List.find?_some hf
        simp only [Bool.and_eq_true, beq_iff_eq] at hpx
        rw [huniq x (List.mem_of_find?_eq_some hf) (hpx.1.trans hid.symm)]
    simp [delete_session, hf]

/-- The database of the C10 witness: a session owned by user `"a"` with
one message; user `"b"` is someone else. -/
def c10db : DB :=
  { DB.empty with
    users := [⟨1, "a", false⟩, ⟨2, "b", false⟩],
    sessions := [⟨1, "a", "비밀 대화", "general", 0, 0⟩],
    messages := [⟨1, 1, "비밀 내용", true, 0⟩],
    nextSessId := 2,
    nextMsgId := 2 }

/-- Witness for C10 at a concrete database: anyone can list the
messages of user `"a"`'s session, while user `"b"` cannot delete or
rename it and user `"a"` can delete it. -/
theorem C10_messages_without_ownership_witness :
    (∃ l, get_session_messages 1 c10db = .ok l
      ∧ ∀ m ∈ c10db.messages, m.session_id = 1 → msgOut m ∈ l)
    ∧ ((∀ title, update_session 1 "b" title c10db = .error "세션을 찾을 수 없습니다.")
        ∧ delete_session 1 "b" c10db = .error "세션을 찾을 수 없습니다.")
    ∧ delete_session 1 "a" c10db
      = .ok (deleteSessions c10db [⟨1, "a", "비밀 대화", "general", 0, 0⟩]) := by
  have h := C10_messages_without_ownership c10db 1
    ⟨1, "a", "비밀 대화", "general", 0, 0⟩ "b" (by decide) (by decide) rfl
  exact ⟨h.1, h.2.1 (by decide), h.2.2⟩

/-- What `get_schedule_info` with a title and a search date returns: a
success result (also on an empty match list) whose `events` payload
holds exactly the projections of the user's calendar records whose title
contains the query substring and whose start time falls in the search
day. -/
theorem get_schedule_info_spec (db : DB) (uuid ts d : String) (td : Int)
    (hts : ts ≠ "") (hdne : d ≠ "") (hdp : parseIso d = some td) :
    ∃ r, execute_function_call "get_schedule_info"
        [("title", ts), ("search_date", d)] uuid db = (.ok r, db)
      ∧ r.status = "success"
      ∧ ∀ e : EventOut, e ∈ r.events.getD []
          ↔ ∃ c ∈ db.calendars, c.user_uuid = uuid
              ∧ containsStr c.event_title ts = true
              ∧ td ≤ c.event_start_time ∧ c.event_start_time < td + oneDaySec
              ∧ eventOut c = e := by
  have htt : truthy (some ts) = true := by simp [truthy, hts]
  have htd : truthy (some d) = true := by simp [truthy, hdne]
  have hargT : argGet [("title", ts), ("search_date", d)] "title" = some ts := by
    simp [argGet, List.lookup]
  have hargD : argGet [("title", ts), ("search_date", d)] "search_date"
      = some d := by
    simp [argGet, List.lookup]
  simp only [execute_function_call, hargT, hargD, htt, htd, fromisoArg, hdp,
    Option.getD_some]
  rw [if_neg (by decide), if_neg (by decide), if_pos (by decide)]
  simp only [Bool.not_true, Bool.false_eq_true, if_false, reduceIte,
    Option.getD_some]
  split
  · rename_i hq
    refine ⟨_, rfl, rfl, ?_⟩
    intro e
    have hnil := List.isEmpty_iff.mp hq
    have hperm := List.perm_insertionSort calStartLe
      (((db.calendars.filter fun c => c.user_uuid == uuid).filter
        fun c => containsStr c.event_title ts).filter
        fun c => decide (td ≤ c.event_start_time)
          && decide (c.event_start_time < td + oneDaySec))
    rw [hnil] at hperm
    have hq2 := hperm.symm.eq_nil
    simp only [Option.getD_some, List.not_mem_nil, false_iff]
    rintro ⟨c, hc, hcu, hcs, hr1, hr2, -⟩
    have : c ∈ (((db.calendars.filter fun c => c.user_uuid == uuid).filter
        fun c => containsStr c.event_title ts).filter
        fun c => decide (td ≤ c.event_start_time)
          && decide (c.event_start_time < td + oneDaySec)) := by
      simp only [List.mem_filter, Bool.and_eq_true, beq_iff_eq,
        decide_eq_true_eq]
      exact ⟨⟨⟨hc, hcu⟩, hcs⟩, hr1, hr2⟩
    rw [hq2] at this
    exact absurd this (List.not_mem_nil c)
  · refine ⟨_, rfl, rfl, ?_⟩
    intro e
    simp only [Option.getD_some, List.mem_map, List.mem_insertionSort,
      List.mem_filter, Bool.and_eq_true, beq_iff_eq, decide_eq_true_eq]
    constructor
    · rintro ⟨c, ⟨⟨⟨hc, hcu⟩, hcs⟩, hr1, hr2⟩, he⟩
      exact ⟨c, hc, hcu, hcs, hr1, hr2, he⟩
    · rintro ⟨c, hc, hcu, hcs, hr1, hr2, he⟩
      exact ⟨c, ⟨⟨⟨hc, hcu⟩, hcs⟩, hr1, hr2⟩, he⟩

/-- C8: round trip.  A schedule created via `create_schedule` is
returned by a subsequent `get_schedule_info` dispatch of the same user
that queries any substring of its title together with a search date
whose calendar day covers its start time (status `success`); after a
`delete_schedule` dispatch that removes it, the same query no longer
returns it. -/
theorem C8_round_trip (db : DB) (uuid title st ts d : String) (t td : Int)
    (hti : title ≠ "") (hsti : st ≠ "") (htsi : ts ≠ "") (hdne : d ≠ "")
    (hparse : parseIso st = some t) (hdp : parseIso d = some td)
    (hsub : containsStr title ts = true)
    (hcov1 : td ≤ t) (hcov2 : t < td + oneDaySec)
    (hidb : ∀ c ∈ db.calendars, c.id < db.nextCalId)
    (huniq : ∀ c ∈ db.calendars, ¬(c.user_uuid = uuid ∧ c.event_title = title)) :
    ∃ r1 db1 ev,
      execute_function_call "create_schedule"
          [("title", title), ("start_time", st)] uuid db = (.ok r1, db1)
      ∧ r1.status = "success"
      ∧ ev = (⟨db.nextCalId, uuid, title, t, none, none, none⟩ : Calendar)
      ∧ (∃ r2, execute_function_call "get_schedule_info"
            [("title", ts), ("search_date", d)] uuid db1 = (.ok r2, db1)
          ∧ r2.status = "success" ∧ eventOut ev ∈ r2.events.getD [])
      ∧ (∃ r3 db3, execute_function_call "delete_schedule"
            [("title", title)] uuid db1 = (.ok r3, db3)
          ∧ r3.status = "success"
          ∧ ∃ r4, execute_function_call "get_schedule_info"
                [("title", ts), ("search_date", d)] uuid db3 = (.ok r4, db3)
              ∧ r4.status = "success" ∧ eventOut ev ∉ r4.events.getD []) := by
  have htt : truthy (some title) = true := by simp [truthy, hti]
  have hst : truthy (some st) = true := by simp [truthy, hsti]
  set ev : Calendar := ⟨db.nextCalId, uuid, title, t, none, none, none⟩ with hev
  set db1 : DB := { db with calendars := db.calendars ++ [ev],
                            nextCalId := db.nextCalId + 1 } with hdb1
  have hcreate : execute_function_call "create_schedule"
      [("title", title), ("start_time", st)] uuid db
      = (.ok { status := "success",
               message := format_datetime_korean st ++ "에 '" ++ title
                 ++ "' 일정이 추가되었습니다.",
               event_id := some db.nextCalId }, db1) := by
    simp only [execute_function_call, argGet, List.lookup]
    rw [if_pos (by decide)]
    simp [truthy, hti, hsti, fromisoArg, hparse, hev, hdb1]
  refine ⟨_, db1, ev, hcreate, rfl, rfl, ?_, ?_⟩
  · obtain ⟨r2, hr2, hr2s, hr2iff⟩ :=
      get_schedule_info_spec db1 uuid ts d td htsi hdne hdp
    refine ⟨r2, hr2, hr2s, (hr2iff (eventOut ev)).mpr ?_⟩
    refine ⟨ev, ?_, rfl, hsub, hcov1, hcov2, rfl⟩
    simp [hdb1]
  · have hn : db.calendars.find?
        (fun c => c.user_uuid == uuid && c.event_title == title) = none := by
      rw [List.find?_eq_none]
      intro c hc
      simpa using huniq c hc
    have hfind : db1.calendars.find?
        (fun c => c.user_uuid == uuid && c.event_title == title) = some ev := by
      rw [hdb1]
      simp only [List.find?_append, hn, Option.none_or]
      simp [hev]
    have hdelete : execute_function_call "delete_schedule"
        [("title", title)] uuid db1
        = (.ok { status := "success",
                 message := "'" ++ title ++ "' 일정이 삭제되었습니다." },
           { db1 with
             calendars := db1.calendars.filter (fun c => c.id != ev.id) }) := by
      simp only [execute_function_call]
      rw [if_neg (by decide), if_neg (by decide), if_neg (by decide),
        if_neg (by decide), if_pos (by decide)]
      simp [argGet, List.lookup, truthy, hti, hfind, hev]
    have hdb3cal : (db1.calendars.filter fun c => c.id != ev.id)
        = db.calendars := by
      rw [hdb1]
      simp only [List.filter_append]
      rw [List.filter_eq_self.mpr fun c hc => by
        simpa [hev] using Nat.ne_of_lt (hidb c hc)]
      simp [hev]
    refine ⟨_, _, hdelete, rfl, ?_⟩
    obtain ⟨r4, hr4, hr4s, hr4iff⟩ :=
      get_schedule_info_spec
        { db1 with calendars := db1.calendars.filter (fun c => c.id != ev.id) }
        uuid ts d td htsi hdne hdp
    refine ⟨r4, hr4, hr4s, ?_⟩
    intro hmem
    obtain ⟨c, hc, hcu, -, -, -, hproj⟩ := (hr4iff (eventOut ev)).mp hmem
    simp only [hdb3cal] at hc
    have hctitle : c.event_title = title := congrArg EventOut.title hproj
    exact huniq c hc ⟨hcu, hctitle⟩

/-- Witness for C8: the round trip on the empty database with the title
`"팀 회의"`, the substring query `"회의"` and the covering day
`2025-03-10`. -/
theorem C8_round_trip_witness :
    ∃ r1 db1 ev,
      execute_function_call "create_schedule"
          [("title", "팀 회의"), ("start_time", "2025-03-10T14:00:00")] "u"
          DB.empty = (.ok r1, db1)
      ∧ r1.status = "success"
      ∧ ev = (⟨DB.empty.nextCalId, "u", "팀 회의", 63877212000, none, none,
              none⟩ : Calendar)
      ∧ (∃ r2, execute_function_call "get_schedule_info"
            [("title", "회의"), ("search_date", "2025-03-10")] "u" db1
            = (.ok r2, db1)
          ∧ r2.status = "success" ∧ eventOut ev ∈ r2.events.getD [])
      ∧ (∃ r3 db3, execute_function_call "delete_schedule"
            [("title", "팀 회의")] "u" db1 = (.ok r3, db3)
          ∧ r3.status = "success"
          ∧ ∃ r4, execute_function_call "get_schedule_info"
                [("title", "회의"), ("search_date", "2025-03-10")] "u" db3
                = (.ok r4, db3)
              ∧ r4.status = "success" ∧ eventOut ev ∉ r4.events.getD []) :=
  C8_round_trip DB.empty "u" "팀 회의" "2025-03-10T14:00:00" "회의" "2025-03-10"
    63877212000 63877161600 (by decide) (by decide) (by decide) (by decide)
    (by decide) (by decide) (by decide) (by decide) (by decide) (by decide)
    (by decide)

/-! ### Retention analysis -/

/-- The sessions the age-eviction query selects: the user's sessions not
updated within the horizon. -/
def inactiveSessions (db : DB) (uuid : String) (now : Int) : List Sess :=
  db.sessions.filter fun s =>
    s.user_uuid == uuid && decide (s.updated_at < now - thirtyDaysSec)

/-- The session table after the age-eviction pass. -/
def afterAgeEviction (db : DB) (uuid : String) (now : Int) : List Sess :=
  db.sessions.filter fun s =>
    !((inactiveSessions db uuid now).any fun d => d.id == s.id)

/-- The user's surviving sessions ordered by update time descending, as
the cap query sees them. -/
def sortedUserSessions (db : DB) (uuid : String) (now : Int) : List Sess :=
  List.insertionSort sessUpdatedGe
    ((afterAgeEviction db uuid now).filter fun s => s.user_uuid == uuid)

/-- The user's sessions updated within the 30-day horizon. -/
def freshSessions (db : DB) (uuid : String) (now : Int) : List Sess :=
  db.sessions.filter fun s =>
    s.user_uuid == uuid && decide (now - thirtyDaysSec ≤ s.updated_at)

/-- The session table `cleanup_old_sessions` leaves behind, phrased
through the stages above. -/
theorem cleanup_old_sessions_sessions (now : Int) (uuid : String) (db : DB) :
    (cleanup_old_sessions now uuid db).sessions
      = if (sortedUserSessions db uuid now).length > MAX_SESSIONS_PER_USER then
          (afterAgeEviction db uuid now).filter fun s =>
            !(((sortedUserSessions db uuid now).drop MAX_SESSIONS_PER_USER).any
              fun d => d.id == s.id)
        else afterAgeEviction db uuid now := by
  simp only [cleanup_old_sessions, deleteSessions, inactiveSessions,
    afterAgeEviction, sortedUserSessions]
  split <;> rfl

/-- C7 (amended): the retention step always deletes every session of
the user older than the 30-day horizon (even when the user is under the
count cap — every surviving session of the user is within the horizon);
and when the user has more than 15 sessions WITHIN THE HORIZON, exactly
15 of the user's sessions remain and they are the most recently updated
ones (every evicted fresh session is no newer than every kept one).
When more than 15 sessions exist but some are stale, fewer than 15 may
remain — see the counterexample. -/
theorem C7_retention (db : DB) (uuid : String) (now : Int)
    (hnd : (db.sessions.map Sess.id).Nodup) :
    (∀ s ∈ (cleanup_old_sessions now uuid db).sessions,
        s.user_uuid = uuid → now - thirtyDaysSec ≤ s.updated_at)
    ∧ ((freshSessions db uuid now).length > MAX_SESSIONS_PER_USER →
        ((cleanup_old_sessions now uuid db).sessions.filter
            fun s => s.user_uuid == uuid).length = MAX_SESSIONS_PER_USER
        ∧ ∀ a ∈ (cleanup_old_sessions now uuid db).sessions,
            a.user_uuid = uuid →
            ∀ b ∈ freshSessions db uuid now,
              b ∉ (cleanup_old_sessions now uuid db).sessions →
              b.updated_at ≤ a.updated_at) := by
  have hL2 : afterAgeEviction db uuid now
      = db.sessions.filter fun s =>
          !(s.user_uuid == uuid
            && decide (s.updated_at < now - thirtyDaysSec)) := by
    apply List.filter_congr
    intro x hx
    congr 1
    cases hb : (x.user_uuid == uuid
        && decide (x.updated_at < now - thirtyDaysSec)) with
    | false =>
      rw [← Bool.not_eq_true, List.any_eq_true]
      rintro ⟨d, hd, hdeq⟩
      have hdmem := List.mem_filter.mp hd
      have : d = x := List.inj_on_of_nodup_map hnd
        (List.mem_of_mem_filter hd) hx (by simpa using hdeq)
      rw [this] at hdmem
      rw [hdmem.2] at hb
      exact Bool.true_eq_false.mp hb
    | true =>
      rw [List.any_eq_true]
      exact ⟨x, List.mem_filter.mpr ⟨hx, hb⟩, by simp⟩
  have hL3 : (afterAgeEviction db uuid now).filter
        (fun s => s.user_uuid == uuid)
      = freshSessions db uuid now := by
    rw [hL2, List.filter_filter]
    unfold freshSessions
    apply List.filter_congr
    intro x _
    cases hxu : (x.user_uuid == uuid) with
    | false => simp [hxu]
    | true =>
      simp only [hxu, Bool.true_and]
      rw [← decide_not]
      exact decide_eq_decide.mpr Int.not_lt
  have hperm4 : List.Perm (sortedUserSessions db uuid now)
      (freshSessions db uuid now) := by
    unfold sortedUserSessions
    rw [hL3]
    exact List.perm_insertionSort _ _
  constructor
  · intro s hs hu
    rw [cleanup_old_sessions_sessions] at hs
    have hs2 : s ∈ afterAgeEviction db uuid now := by
      by_cases hc : (sortedUserSessions db uuid now).length
          > MAX_SESSIONS_PER_USER
      · rw [if_pos hc] at hs
        exact List.mem_of_mem_filter hs
      · rw [if_neg hc] at hs
        exact hs
    rw [hL2] at hs2
    have hcondk := (List.mem_filter.mp hs2).2
    simp only [hu, beq_self_eq_true, Bool.true_and, Bool.not_eq_true',
      decide_eq_false_iff_not] at hcondk
    exact Int.not_lt.mp hcondk
  · intro hgt
    have hcond : (sortedUserSessions db uuid now).length
        > MAX_SESSIONS_PER_USER := by
      rw [hperm4.length_eq]
      exact hgt
    have hres : (cleanup_old_sessions now uuid db).sessions
        = (afterAgeEviction db uuid now).filter fun s =>
            !(((sortedUserSessions db uuid now).drop
                MAX_SESSIONS_PER_USER).any fun d => d.id == s.id) := by
      rw [cleanup_old_sessions_sessions, if_pos hcond]
    have hndfresh : ((freshSessions db uuid now).map Sess.id).Nodup := by
      unfold freshSessions
      exact List.Nodup.sublist
        (List.Sublist.map Sess.id (List.filter_sublist db.sessions)) hnd
    have hndsorted : ((sortedUserSessions db uuid now).map Sess.id).Nodup :=
      ((hperm4.map Sess.id).nodup_iff).mpr hndfresh
    have hsplit : (sortedUserSessions db uuid now).take MAX_SESSIONS_PER_USER
        ++ (sortedUserSessions db uuid now).drop MAX_SESSIONS_PER_USER
        = sortedUserSessions db uuid now := List.take_append_drop _ _
    have hdisj : ((sortedUserSessions db uuid now).take
          MAX_SESSIONS_PER_USER).Disjoint
        ((sortedUserSessions db uuid now).drop MAX_SESSIONS_PER_USER) := by
      have h := hndsorted
      rw [← hsplit, List.map_append] at h
      obtain ⟨-, -, hdj⟩ := List.nodup_append.mp h
      intro x hx1 hx2
      exact hdj (List.mem_map_of_mem Sess.id hx1)
        (List.mem_map_of_mem Sess.id hx2)
    have hkeep_take : ∀ a ∈ (sortedUserSessions db uuid now).take
          MAX_SESSIONS_PER_USER,
        (!(((sortedUserSessions db uuid now).drop MAX_SESSIONS_PER_USER).any
          fun d => d.id == a.id)) = true := by
      intro a ha
      rw [Bool.not_eq_true', List.any_eq_false]
      intro d hd hdeq
      have hdid : d.id = a.id := by simpa using hdeq
      have hda : d = a := by
        have hdm : d ∈ sortedUserSessions db uuid now := by
          rw [← hsplit]
          exact List.mem_append.mpr (Or.inr hd)
        have ham : a ∈ sortedUserSessions db uuid now := by
          rw [← hsplit]
          exact List.mem_append.mpr (Or.inl ha)
        exact List.inj_on_of_nodup_map hndsorted hdm ham hdid
      exact hdisj ha (hda ▸ hd)
    have hkeep_drop : ∀ a ∈ (sortedUserSessions db uuid now).drop
          MAX_SESSIONS_PER_USER,
        ¬((!(((sortedUserSessions db uuid now).drop
            MAX_SESSIONS_PER_USER).any fun d => d.id == a.id)) = true) := by
      intro a ha
      rw [Bool.not_eq_true', ← Bool.not_eq_true, List.any_eq_true]
      intro hno
      exact hno ⟨a, ha, by simp⟩
    have hresuser : List.Perm
        ((cleanup_old_sessions now uuid db).sessions.filter
          fun s => s.user_uuid == uuid)
        ((sortedUserSessions db uuid now).take MAX_SESSIONS_PER_USER) := by
      rw [hres, List.filter_filter]
      rw [List.filter_congr (fun x _ => Bool.and_comm _ _), ← List.filter_filter,
        hL3]
      refine List.Perm.trans ((hperm4.symm).filter
        (fun s => !(((sortedUserSessions db uuid now).drop
          MAX_SESSIONS_PER_USER).any fun d => d.id == s.id)))
        (List.Perm.of_eq ?_)
      have key : ((sortedUserSessions db uuid now).take MAX_SESSIONS_PER_USER
            ++ (sortedUserSessions db uuid now).drop
              MAX_SESSIONS_PER_USER).filter
            (fun s => !(((sortedUserSessions db uuid now).drop
              MAX_SESSIONS_PER_USER).any fun d => d.id == s.id))
          = (sortedUserSessions db uuid now).take MAX_SESSIONS_PER_USER := by
        rw [List.filter_append, List.filter_eq_self.mpr hkeep_take,
          List.filter_eq_nil_iff.mpr hkeep_drop, List.append_nil]
      rw [hsplit] at key
      exact key
    constructor
    · rw [hresuser.length_eq, List.length_take,
        Nat.min_eq_left (le_of_lt hcond)]
    · intro a ha hau b hb hbn
      have ha2 : a ∈ (sortedUserSessions db uuid now).take
          MAX_SESSIONS_PER_USER := by
        refine (hresuser.mem_iff).mp ?_
        exact List.mem_filter.mpr ⟨ha, by simp [hau]⟩
      have hb1 : b ∈ sortedUserSessions db uuid now := (hperm4.mem_iff).mpr hb
      have hb2 : b ∈ (sortedUserSessions db uuid now).drop
          MAX_SESSIONS_PER_USER := by
        rw [← hsplit] at hb1
        rcases List.mem_append.mp hb1 with hbt | hbd
        · exfalso
          apply hbn
          rw [hres]
          refine List.mem_filter.mpr ⟨?_, hkeep_take b hbt⟩
          have : b ∈ (afterAgeEviction db uuid now).filter
              (fun s => s.user_uuid == uuid) := by
            rw [hL3]
            exact hb
          exact List.mem_of_mem_filter this
        · exact hbd
      have hsortpw : List.Pairwise sessUpdatedGe
          (sortedUserSessions db uuid now) := by
        unfold sortedUserSessions
        exact List.sorted_insertionSort _ _
      rw [← hsplit] at hsortpw
      exact (List.pairwise_append.mp hsortpw).2.2 a ha2 b hb2

/-- The database of the C7 counterexample: one user with sixteen
sessions, all last updated more than 30 days before `now`. -/
def c7db : DB :=
  { DB.empty with
    users := [⟨1, "u", false⟩],
    sessions := (List.range 16).map fun i => ⟨i + 1, "u", "대화", "general", 0, 0⟩,
    nextSessId := 17 }

/-- C7 counterexample: a user with sixteen sessions (more than the cap)
ends the retention step with ZERO sessions, not fifteen, because all of
them fall to the 30-day age eviction before the count cap is applied. -/
theorem C7_counterexample :
    (c7db.sessions.filter fun s => s.user_uuid == "u").length = 16
    ∧ (cleanup_old_sessions 1000000000 "u" c7db).sessions = [] :=
  ⟨by decide, by decide⟩

/-- The database of the C7 witness: one user with sixteen sessions, all
updated within the 30-day horizon, with distinct update times. -/
def c7wdb : DB :=
  { DB.empty with
    users := [⟨1, "u", false⟩],
    sessions := (List.range 16).map fun i =>
      ⟨i + 1, "u", "대화", "general", 0, (999999000 + i : Int)⟩,
    nextSessId := 17 }

/-- Witness for C7 (amended): sixteen fresh sessions are cut down to
exactly fifteen by the retention step. -/
theorem C7_retention_witness :
    ((cleanup_old_sessions 1000000000 "u" c7wdb).sessions.filter
      fun s => s.user_uuid == "u").length = MAX_SESSIONS_PER_USER :=
  ((C7_retention c7wdb "u" 1000000000 (by decide)).2 (by decide)).1

end DaySync
